import Mathlib

/-!
Shallow embedding of the dependency-aware project assembly engine of
gantt-project-maker (src/gantt_project_maker/project_classes.py), together
with theorems settling the frozen claims about it.

Conventions used throughout:
* Dates are modelled by their proleptic-Gregorian ordinal, an `Int`, exactly
  the value of Python's `date.toordinal()` (ordinal 1 is a Monday, so an
  ordinal `o` is a Saturday iff `o % 7 = 6`).  Comparison of Python `date`
  objects is comparison of their ordinals.
* Python exceptions are values of `PyError`; fallible code returns
  `Except PyError _`.
* Python dicts are association lists with distinct keys, looked up with
  `List.lookup`; insertion order is list order, matching dict iteration.
* The vendored `gantt` drawing library is not part of the assessed sources;
  its elements appear here only through the attributes the assembly engine
  reads (start date, end date, resources, dynamically attached fields).
-/

/-- The Python exception kinds raised by the embedded code paths. -/
inductive PyError where
  | valueError
  | assertionError
  | typeError
  | parserError
deriving DecidableEq, Repr

/-- Embeds `get_nearest_saturday` (project_classes.py lines 53-75) on date
ordinals.  Python's `%` on a positive modulus agrees with `Int.emod`, and the
float comparison `d - saturday > 7/2` on the integer `d - saturday` is the
integer condition `(d - saturday) * 2 > 7`. -/
def get_nearest_saturday (d : Int) : Int :=
  let last := d - 6
  let sunday := last - last % 7
  let saturday := sunday + 6
  if (d - saturday) * 2 > 7 then saturday + 7 else saturday

/-- The four rendering scales of the `SCALES` table (lines 21-26). -/
inductive Scale where
  | daily
  | weekly
  | monthly
  | quarterly
deriving DecidableEq, Repr

/-- Embeds the today-marker adjustment of `write_planning`
(lines 1154-1161): the resolved `today` is snapped to the nearest Saturday
exactly when it is present and the active scale is not the daily scale. -/
def writePlanningToday (today : Option Int) (scale : Scale) : Option Int :=
  match today with
  | none => none
  | some t =>
      if today ≠ none ∧ scale ≠ Scale.daily then some (get_nearest_saturday t)
      else some t

theorem get_nearest_saturday_is_saturday (d : Int) :
    get_nearest_saturday d % 7 = 6 := by
  simp only [get_nearest_saturday]
  split <;> omega

theorem get_nearest_saturday_near (d : Int) :
    (d - get_nearest_saturday d).natAbs ≤ 3 := by
  simp only [get_nearest_saturday]
  split <;> omega

theorem get_nearest_saturday_fixed (d : Int) (h : d % 7 = 6) :
    get_nearest_saturday d = d := by
  simp only [get_nearest_saturday]
  split <;> omega

/-- C8: `get_nearest_saturday` always returns a Saturday (ordinal ≡ 6 mod 7)
at most 3 days away from its input; a date that is already a Saturday is
returned unchanged, so the snap is idempotent; and `write_planning` applies
the snap to the `today` marker exactly when the active scale is not daily. -/
theorem c8_nearest_saturday_snap (d t : Int) (s : Scale) :
    get_nearest_saturday d % 7 = 6 ∧
    (d - get_nearest_saturday d).natAbs ≤ 3 ∧
    (d % 7 = 6 → get_nearest_saturday d = d) ∧
    get_nearest_saturday (get_nearest_saturday d) = get_nearest_saturday d ∧
    writePlanningToday (some t) s =
      (if s = Scale.daily then some t else some (get_nearest_saturday t)) ∧
    writePlanningToday none s = none := by
  refine ⟨get_nearest_saturday_is_saturday d, get_nearest_saturday_near d,
    get_nearest_saturday_fixed d, ?_, ?_, rfl⟩
  · exact get_nearest_saturday_fixed _ (get_nearest_saturday_is_saturday d)
  · by_cases hs : s = Scale.daily <;> simp [writePlanningToday, hs]

/-- Witness for C8 at a concrete input: ordinal 10 is a Wednesday; the snap
moves it 3 days forward to Saturday 13, and Saturday 13 is left unchanged. -/
theorem c8_nearest_saturday_snap_witness :
    get_nearest_saturday 10 = 13 ∧ (10 : Int) % 7 ≠ 6 ∧
    get_nearest_saturday 13 = 13 ∧
    writePlanningToday (some 10) Scale.weekly = some 13 ∧
    writePlanningToday (some 10) Scale.daily = some 10 := by
  have h := c8_nearest_saturday_snap 13 10 Scale.weekly
  have hd := c8_nearest_saturday_snap 13 10 Scale.daily
  refine ⟨by decide, by decide, h.2.2.1 (by decide), ?_, ?_⟩
  · rw [h.2.2.2.2.1]; decide
  · rw [hd.2.2.2.2.1]; decide

/-!
## Dependency Resolver

`ProjectPlanner.get_dependency` (lines 570-605) resolves a key against the
`tasks_and_milestones` dict first and the `subprojects` dict second.  The two
namespaces are modelled as association lists from keys to element
identifiers; the logging side channel is modelled by an explicit list of
emitted warnings.
-/

/-- Warnings logged by dependency resolution: a cross-namespace collision
(line 588) or a missing dependency under an active employee filter
(line 600). -/
inductive DepWarning where
  | collision (key : String)
  | missing (key : String)
deriving DecidableEq, Repr

/-- Embeds `ProjectPlanner.get_dependency` (lines 570-605): look the key up
among tasks and milestones first (warning when the subprojects namespace also
has it), then among subprojects; when both lookups fail, raise an
`AssertionError` unless an employee filter is active, in which case return
`None` and log a warning. -/
def get_dependency (tam subs : List (String × Nat)) (filt : Option (List String))
    (key : String) : Except PyError (Option Nat) × List DepWarning :=
  match tam.lookup key with
  | some v =>
      (Except.ok (some v),
        if (subs.lookup key).isSome then [DepWarning.collision key] else [])
  | none =>
      match subs.lookup key with
      | some v => (Except.ok (some v), [])
      | none =>
          match filt with
          | some _ => (Except.ok none, [DepWarning.missing key])
          | none => (Except.error PyError.assertionError, [])

/-- The three configuration shapes accepted by
`ProjectPlanner.get_dependencies` (lines 643-673): a bare string key, a list
of keys, or a mapping of category label to list of keys. -/
inductive DepSpec where
  | single (key : String)
  | keyList (keys : List String)
  | grouped (groups : List (String × List String))
deriving DecidableEq, Repr

/-- Sequential resolution of a list of keys, appending each result; an
exception raised by `get_dependency` propagates and aborts the loop, as in
the Python `for` loops of lines 663-671. -/
def resolveKeys (tam subs : List (String × Nat)) (filt : Option (List String)) :
    List String → Except PyError (List (Option Nat))
  | [] => Except.ok []
  | k :: rest =>
      match (get_dependency tam subs filt k).1 with
      | Except.error e => Except.error e
      | Except.ok r =>
          match resolveKeys tam subs filt rest with
          | Except.error e => Except.error e
          | Except.ok rs => Except.ok (r :: rs)

/-- Resolution of the mapping shape: the nested loop of lines 664-667
resolves each category's key list in mapping order into one flat list. -/
def resolveGroups (tam subs : List (String × Nat)) (filt : Option (List String)) :
    List (String × List String) → Except PyError (List (Option Nat))
  | [] => Except.ok []
  | g :: rest =>
      match resolveKeys tam subs filt g.2 with
      | Except.error e => Except.error e
      | Except.ok rs =>
          match resolveGroups tam subs filt rest with
          | Except.error e => Except.error e
          | Except.ok rs2 => Except.ok (rs ++ rs2)

/-- Embeds `ProjectPlanner.get_dependencies` (lines 643-673).  A `None`
argument returns `None` (the function body is skipped); otherwise the result
is the ordered list of resolved elements. -/
def get_dependencies (tam subs : List (String × Nat)) (filt : Option (List String))
    (dependencies : Option DepSpec) : Except PyError (Option (List (Option Nat))) :=
  match dependencies with
  | none => Except.ok none
  | some (DepSpec.single k) => (resolveKeys tam subs filt [k]).map some
  | some (DepSpec.grouped groups) => (resolveGroups tam subs filt groups).map some
  | some (DepSpec.keyList ks) => (resolveKeys tam subs filt ks).map some

theorem resolveKeys_append (tam subs : List (String × Nat)) (filt : Option (List String))
    (xs ys : List String) :
    resolveKeys tam subs filt (xs ++ ys) =
      match resolveKeys tam subs filt xs with
      | Except.error e => Except.error e
      | Except.ok rs =>
          match resolveKeys tam subs filt ys with
          | Except.error e => Except.error e
          | Except.ok rs2 => Except.ok (rs ++ rs2) := by
  induction xs with
  | nil =>
      simp only [List.nil_append, resolveKeys]
      cases resolveKeys tam subs filt ys <;> simp
  | cons k rest ih =>
      cases hg : (get_dependency tam subs filt k).1 with
      | error e => simp [resolveKeys, hg]
      | ok r =>
          cases hr : resolveKeys tam subs filt rest with
          | error e => simp [resolveKeys, hg, hr, ih]
          | ok rs =>
              cases hy : resolveKeys tam subs filt ys with
              | error e => simp [resolveKeys, hg, hr, hy, ih]
              | ok rs2 => simp [resolveKeys, hg, hr, hy, ih]

theorem resolveGroups_eq_flatten (tam subs : List (String × Nat))
    (filt : Option (List String)) (groups : List (String × List String)) :
    resolveGroups tam subs filt groups =
      resolveKeys tam subs filt (groups.foldr (fun g acc => g.2 ++ acc) []) := by
  induction groups with
  | nil => rfl
  | cons g rest ih =>
      simp only [resolveGroups, List.foldr_cons, resolveKeys_append, ih]

/-- C3: a key absent from both namespaces makes `get_dependency` fail with an
unresolved-dependency error (`AssertionError`) when no employee filter is
active; with an active filter it instead returns a null reference together
with a logged warning, so the run continues. -/
theorem c3_unresolved_dependency (tam subs : List (String × Nat)) (k : String)
    (h1 : tam.lookup k = none) (h2 : subs.lookup k = none) :
    get_dependency tam subs none k = (Except.error PyError.assertionError, []) ∧
    ∀ fl : List String,
      get_dependency tam subs (some fl) k = (Except.ok none, [DepWarning.missing k]) := by
  constructor
  · simp [get_dependency, h1, h2]
  · intro fl
    simp [get_dependency, h1, h2]

/-- Witness for C3: the key called ghost is absent from two concrete
namespaces; without a filter resolution raises, with a filter it yields a
null reference and a warning. -/
theorem c3_unresolved_dependency_witness :
    get_dependency [(("a"), 1)] [(("b"), 2)] none ("ghost") =
      (Except.error PyError.assertionError, []) ∧
    get_dependency [(("a"), 1)] [(("b"), 2)] (some [("alice")]) ("ghost") =
      (Except.ok none, [DepWarning.missing ("ghost")]) := by
  have h := c3_unresolved_dependency [(("a"), 1)] [(("b"), 2)] ("ghost")
    (by decide) (by decide)
  exact ⟨h.1, h.2 [("alice")]⟩

/-- C4: dependency lookup consults the tasks-and-milestones namespace first
and the subprojects namespace second; a key present in both resolves to the
tasks-and-milestones entry with a collision warning and no error. -/
theorem c4_lookup_order_and_collision (tam subs : List (String × Nat))
    (filt : Option (List String)) (k : String) (v : Nat) :
    (tam.lookup k = some v →
      (get_dependency tam subs filt k).1 = Except.ok (some v) ∧
      ((subs.lookup k).isSome →
        get_dependency tam subs filt k =
          (Except.ok (some v), [DepWarning.collision k]))) ∧
    (tam.lookup k = none → subs.lookup k = some v →
      get_dependency tam subs filt k = (Except.ok (some v), [])) := by
  refine ⟨fun h => ⟨?_, fun hs => ?_⟩, fun h1 h2 => ?_⟩
  · simp [get_dependency, h]
  · simp [get_dependency, h, hs]
  · simp [get_dependency, h1, h2]

/-- Witness for C4: a key present in both concrete namespaces resolves to the
tasks-and-milestones entry (value 1, not 2) with a collision warning; a key
present only among subprojects resolves there. -/
theorem c4_lookup_order_and_collision_witness :
    get_dependency [(("k"), 1)] [(("k"), 2)] none ("k") =
      (Except.ok (some 1), [DepWarning.collision ("k")]) ∧
    get_dependency [] [(("s"), 2)] none ("s") = (Except.ok (some 2), []) := by
  have h := c4_lookup_order_and_collision [(("k"), 1)] [(("k"), 2)] none ("k") 1
  have h2 := c4_lookup_order_and_collision [] [(("s"), 2)] none ("s") 2
  exact ⟨(h.1 (by decide)).2 (by decide), h2.2 (by decide) (by decide)⟩

/-- C9: the three dependency reference shapes resolve identically — a bare
key, the singleton list, and a one-category mapping give the same ordered
result, and a mapping resolves exactly like the concatenation of its key
lists. -/
theorem c9_dependency_shapes (tam subs : List (String × Nat))
    (filt : Option (List String)) (k : String) (c : String) :
    get_dependencies tam subs filt (some (DepSpec.single k)) =
      get_dependencies tam subs filt (some (DepSpec.keyList [k])) ∧
    get_dependencies tam subs filt (some (DepSpec.grouped [(c, [k])])) =
      get_dependencies tam subs filt (some (DepSpec.keyList [k])) ∧
    ∀ groups : List (String × List String),
      get_dependencies tam subs filt (some (DepSpec.grouped groups)) =
        get_dependencies tam subs filt
          (some (DepSpec.keyList (groups.foldr (fun g acc => g.2 ++ acc) []))) := by
  refine ⟨rfl, ?_, fun groups => ?_⟩
  · simp [get_dependencies, resolveGroups_eq_flatten]
  · simp [get_dependencies, resolveGroups_eq_flatten]

/-!
## Project Assembly Engine

`ProjectPlanner.make_projects` (lines 860-1074) populates one subproject per
configuration entry.  The per-child loop body (lines 931-1041) and the
collapse epilogue (lines 1044-1066) are embedded below.  A resolved child
element (a `gantt` task, milestone or nested project) is represented by the
attributes the loop reads.  The planner invariant holds that
`filter_employees` is either `None` or a non-empty set (constructor
lines 446-450), so an active filter is modelled by `some fl`.
-/

/-- A resolved child element of a subproject, as consumed by the loop body of
`make_projects`.  `employees` is the dynamically attached raw configuration
attribute (set by `make_task_or_milestone` lines 796-811 for tasks or by
lines 914-916 for subprojects; `none` means the attribute is absent and
reading it raises `AttributeError`).  `resources` mirrors the gantt element's
resource list (employee keys; `none` means no such attribute).  `endDate =
none` models a `task.end_date()` call that raises `AssertionError` (an
open-ended element); the vendored gantt library itself is outside the
assessed sources.  A string or dict of contributing employees is modelled by
its list of keys. -/
structure ChildElem where
  isProject : Bool
  detail : Bool
  employees : Option (List String)
  resources : Option (List String)
  startDate : Int
  endDate : Option Int
deriving DecidableEq, Repr

/-- Embeds `check_if_employee_in_contributing` (lines 1251-1271): false on a
falsy (empty) contributor collection, otherwise true iff the contributor set
intersects the filter set. -/
def check_if_employee_in_contributing
    (filter_employees contributing_employees : List String) : Bool :=
  if contributing_employees.isEmpty then false
  else contributing_employees.any (fun e => filter_employees.contains e)

/-- The employee-filter skip decision of lines 976-998: with an active
filter, reading `task.employees` either raises `AttributeError` (attribute
absent: skip if the element is a gantt task, keep if it is a project) or
yields the contributor collection, which is then intersected with the filter
set by `check_if_employee_in_contributing`. -/
def employeeFilterSkip (filt : Option (List String)) (c : ChildElem) : Bool :=
  match filt with
  | none => false
  | some fl =>
      match c.employees with
      | none => !c.isProject
      | some contrib => !check_if_employee_in_contributing fl contrib

/-- A child survives the population pass when it is neither skipped by the
employee filter (lines 976-998) nor by the detail filter (lines 936-941 and
1000-1001). -/
def childSurvives (details : Bool) (filt : Option (List String)) (c : ChildElem) : Bool :=
  !employeeFilterSkip filt c && !(!details && c.detail)

/-- Embeds `get_contributors_task` (lines 1301-1327): append the element's
resources to the running contributor list; an absent or falsy resource
attribute leaves the list unchanged. -/
def get_contributors_task (c : ChildElem) (contributors : Option (List String)) :
    Option (List String) :=
  match c.resources with
  | none => contributors
  | some rs =>
      if rs.isEmpty then contributors
      else
        match contributors with
        | none => some rs
        | some cur => some (cur ++ rs)

/-- Embeds `get_contributors_from_resources` (lines 1330-1354): walk the
employee registry in declaration order and append every employee selected by
the collapsed-employees override.  A registry entry is identified by its key. -/
def get_contributors_from_resources (projectsEmployeeCollapsed : List String)
    (contributors : Option (List String)) (allResources : List String) :
    Option (List String) :=
  allResources.foldl
    (fun acc emp =>
      if projectsEmployeeCollapsed.contains emp then
        match acc with
        | none => some [emp]
        | some l => some (l ++ [emp])
      else acc)
    contributors

/-- Embeds the span bookkeeping of lines 1019-1041, in statement order: the
first guarded assignment of `main_start_date`, the try/except overwrite of
`main_end_date` (the `except AssertionError` branch sets it to `None`), then
the two conditional updates.  Note the second end-date update can only fire
when the preceding overwrite left `main_end_date` non-`None`. -/
def spanStep (ws we : Int) (mainStart mainEnd : Option Int) (c : ChildElem) :
    Option Int × Option Int :=
  let ms1 : Option Int :=
    match mainStart with
    | none => if ws ≤ c.startDate ∧ c.startDate < we then some c.startDate else none
    | some m => some m
  let me1 : Option Int :=
    match c.endDate with
    | none => none
    | some te => some (min we te)
  let ms2 : Option Int :=
    match ms1 with
    | none => none
    | some m => if ws < c.startDate ∧ c.startDate < m then some c.startDate else some m
  let me2 : Option Int :=
    match me1, c.endDate with
    | some m, some te => if m < te ∧ te ≤ we then some te else some m
    | _, _ => me1
  (ms2, me2)

/-- The mutable loop state of one `make_projects` subproject iteration:
children attached to the visible project, whether this subproject's key was
appended to `added_projects` (line 1004), the running aggregate span and the
running contributor list. -/
structure AsmState where
  attached : List ChildElem
  addedFlag : Bool
  mainStart : Option Int
  mainEnd : Option Int
  contributors : Option (List String)
deriving DecidableEq, Repr

/-- The state before any child is processed (lines 909-911 and the empty
project of line 907). -/
def initState : AsmState :=
  { attached := [], addedFlag := false, mainStart := none, mainEnd := none,
    contributors := none }

/-- One iteration of the child loop of `make_projects` (lines 931-1041) for
an already resolved child: employee-filter skip, detail skip, conditional
attachment (`project.add_task` only when collapse is off or the child is a
nested project, lines 1003-1005), contributor collection (lines 1007-1017)
and span bookkeeping (lines 1019-1041). -/
def stepChild (details : Bool) (filt : Option (List String)) (collapse : Bool)
    (ws we : Int) (empCollapsed : Option (List String)) (registry : List String)
    (st : AsmState) (c : ChildElem) : AsmState :=
  if employeeFilterSkip filt c then st
  else if !details && c.detail then st
  else
    let st1 :=
      if !collapse || c.isProject then
        { st with attached := st.attached ++ [c], addedFlag := true }
      else st
    let contribs :=
      match empCollapsed with
      | none => get_contributors_task c st1.contributors
      | some pe => get_contributors_from_resources pe st1.contributors registry
    let span := spanStep ws we st1.mainStart st1.mainEnd c
    { st1 with contributors := contribs, mainStart := span.1, mainEnd := span.2 }

/-- Folds the child loop over the subproject's resolved children in
configuration order. -/
def assembleChildren (details : Bool) (filt : Option (List String)) (collapse : Bool)
    (ws we : Int) (empCollapsed : Option (List String)) (registry : List String)
    (children : List ChildElem) : AsmState :=
  children.foldl (stepChild details filt collapse ws we empCollapsed registry) initState

/-- The synthetic summary task of the collapse epilogue (lines 1051-1064):
`stopDate = none` models the `duration=1` variant built when no aggregate end
date exists. -/
structure SummaryTask where
  name : String
  startDate : Int
  stopDate : Option Int
  resources : Option (List String)
deriving DecidableEq, Repr

/-- Embeds the collapse epilogue (lines 1044-1066): one synthetic summary
task is built exactly when collapse mode is on, an aggregate start exists,
and no child of this subproject was attached individually (its key never
entered `added_projects`).  `list(set(..))` deduplicates the contributor
list; Python's set order is arbitrary, so the canonical `List.dedup`
representative stands for the deduplicated collection. -/
def collapseSummary (collapse : Bool) (nameCollapsed : String) (st : AsmState) :
    Option SummaryTask :=
  match collapse, st.mainStart, st.addedFlag with
  | true, some s, false =>
      some { name := nameCollapsed, startDate := s, stopDate := st.mainEnd,
             resources := st.contributors.map (fun l => l.dedup) }
  | _, _, _ => none

/-- Population of one subproject: the child loop followed by the collapse
epilogue, returning the final loop state and the optional summary task. -/
def makeSubproject (details : Bool) (filt : Option (List String)) (collapse : Bool)
    (ws we : Int) (empCollapsed : Option (List String)) (registry : List String)
    (nameCollapsed : String) (children : List ChildElem) :
    AsmState × Option SummaryTask :=
  let st := assembleChildren details filt collapse ws we empCollapsed registry children
  (st, collapseSummary collapse nameCollapsed st)

/-- Modelled from the spec, as the reference side of C1: the aggregate start
is the earliest child start date that falls at or after the planning-window
start. -/
def specAggregateStart (ws : Int) (children : List ChildElem) : Option Int :=
  children.foldl
    (fun acc c =>
      if ws ≤ c.startDate then
        match acc with
        | none => some c.startDate
        | some m => some (min m c.startDate)
      else acc)
    none

/-- Modelled from the spec, as the reference side of C1: the aggregate end is
the latest child end date, clipped to at most the planning-window end; a
child without a resolvable end date leaves the aggregate end unchanged. -/
def specAggregateEnd (we : Int) (children : List ChildElem) : Option Int :=
  children.foldl
    (fun acc c =>
      match c.endDate with
      | none => acc
      | some te =>
          match acc with
          | none => some (min we te)
          | some m => some (max m (min we te)))
    none

theorem check_contributing_iff (fl es : List String) :
    check_if_employee_in_contributing fl es = true ↔ ∃ e ∈ es, e ∈ fl := by
  cases es with
  | nil => simp [check_if_employee_in_contributing]
  | cons e0 rest =>
      simp [check_if_employee_in_contributing, List.any_eq_true, List.elem_iff,
        List.contains]

theorem assemble_no_project_no_attach (details : Bool) (filt : Option (List String))
    (ws we : Int) (empCollapsed : Option (List String)) (registry : List String)
    (children : List ChildElem) (st : AsmState)
    (h : ∀ c ∈ children, childSurvives details filt c = true → c.isProject = false) :
    (children.foldl (stepChild details filt true ws we empCollapsed registry) st).attached
        = st.attached ∧
    (children.foldl (stepChild details filt true ws we empCollapsed registry) st).addedFlag
        = st.addedFlag := by
  induction children generalizing st with
  | nil => exact ⟨rfl, rfl⟩
  | cons c rest ih =>
      have hstep :
          (stepChild details filt true ws we empCollapsed registry st c).attached
              = st.attached ∧
          (stepChild details filt true ws we empCollapsed registry st c).addedFlag
              = st.addedFlag := by
        by_cases h1 : employeeFilterSkip filt c = true
        · simp [stepChild, h1]
        · by_cases h2 : (!details && c.detail) = true
          · simp [stepChild, h1, h2]
          · have hsurv : childSurvives details filt c = true := by
              simp only [Bool.not_eq_true] at h1 h2
              simp [childSurvives, h1, h2]
            have hproj : c.isProject = false := h c (by simp) hsurv
            simp [stepChild, h1, h2, hproj]
      rw [List.foldl_cons]
      obtain ⟨ha, hf⟩ := ih (stepChild details filt true ws we empCollapsed registry st c)
        (fun x hx hs => h x (List.mem_cons_of_mem _ hx) hs)
      exact ⟨ha.trans hstep.1, hf.trans hstep.2⟩

theorem assembleChildren_no_project (details : Bool) (filt : Option (List String))
    (ws we : Int) (empCollapsed : Option (List String)) (registry : List String)
    (children : List ChildElem)
    (h : ∀ c ∈ children, childSurvives details filt c = true → c.isProject = false) :
    (assembleChildren details filt true ws we empCollapsed registry children).attached = [] ∧
    (assembleChildren details filt true ws we empCollapsed registry children).addedFlag
        = false :=
  assemble_no_project_no_attach details filt ws we empCollapsed registry children
    initState h

/-- C1 fails on the code: with the planning window set to days 0..100, a
child list of two tasks ending on days 60 and 30 lets the second task
overwrite the aggregate end down to 30, where the claim requires the latest
end 60 (the recovery update of lines 1037-1041 can never fire because of the
unconditional overwrite at line 1030); a trailing open-ended task resets the
aggregate end to `None` where the claim requires it to be left unchanged; and
a later child starting exactly at the window start is refused by the strict
inequality of line 1033, so the earliest at-or-after-window-start child start
0 is not recorded. -/
theorem c1_aggregate_span_divergence :
    (assembleChildren true none false 0 100 none []
        [⟨false, false, none, none, 10, some 60⟩,
         ⟨false, false, none, none, 20, some 30⟩]).mainEnd = some 30 ∧
    specAggregateEnd 100
        [⟨false, false, none, none, 10, some 60⟩,
         ⟨false, false, none, none, 20, some 30⟩] = some 60 ∧
    (assembleChildren true none false 0 100 none []
        [⟨false, false, none, none, 10, some 60⟩,
         ⟨false, false, none, none, 15, none⟩]).mainEnd = none ∧
    specAggregateEnd 100
        [⟨false, false, none, none, 10, some 60⟩,
         ⟨false, false, none, none, 15, none⟩] = some 60 ∧
    (assembleChildren true none false 0 100 none []
        [⟨false, false, none, none, 10, some 60⟩,
         ⟨false, false, none, none, 0, some 20⟩]).mainStart = some 10 ∧
    specAggregateStart 0
        [⟨false, false, none, none, 10, some 60⟩,
         ⟨false, false, none, none, 0, some 20⟩] = some 0 := by
  decide

/-- C2 fails as stated: under collapse, a subproject whose surviving children
include a nested project (attached individually at lines 1003-1005) has a
non-empty aggregate span, yet no synthetic summary task is added because the
subproject's key entered `added_projects`. -/
theorem c2_collapse_counterexample :
    (makeSubproject true none true 0 100 none [] ("sub")
        [⟨true, false, none, none, 10, some 20⟩,
         ⟨false, false, none, none, 30, some 40⟩]).2 = none ∧
    (makeSubproject true none true 0 100 none [] ("sub")
        [⟨true, false, none, none, 10, some 20⟩,
         ⟨false, false, none, none, 30, some 40⟩]).1.mainStart = some 10 ∧
    (makeSubproject true none true 0 100 none [] ("sub")
        [⟨true, false, none, none, 10, some 20⟩,
         ⟨false, false, none, none, 30, some 40⟩]).1.attached
        = [⟨true, false, none, none, 10, some 20⟩] := by
  decide

/-- C2 as amended: when collapse mode is enabled and no surviving child is a
nested project, no child is attached individually and — provided the
aggregate span start is non-empty — exactly one synthetic summary task is
added, spanning the aggregate start/end and carrying the deduplicated
aggregate contributor set as its resources. -/
theorem c2_collapse_summary (details : Bool) (filt : Option (List String))
    (ws we : Int) (empCollapsed : Option (List String)) (registry : List String)
    (nameCollapsed : String) (children : List ChildElem) (s : Int)
    (hproj : ∀ c ∈ children, childSurvives details filt c = true → c.isProject = false)
    (hstart :
      (assembleChildren details filt true ws we empCollapsed registry children).mainStart
        = some s) :
    (makeSubproject details filt true ws we empCollapsed registry nameCollapsed
        children).1.attached = [] ∧
    (makeSubproject details filt true ws we empCollapsed registry nameCollapsed
        children).2 =
      some { name := nameCollapsed, startDate := s,
             stopDate :=
               (assembleChildren details filt true ws we empCollapsed registry
                 children).mainEnd,
             resources :=
               (assembleChildren details filt true ws we empCollapsed registry
                 children).contributors.map (fun l => l.dedup) } := by
  obtain ⟨ha, hf⟩ :=
    assembleChildren_no_project details filt ws we empCollapsed registry children hproj
  constructor
  · simpa [makeSubproject] using ha
  · simp only [makeSubproject]
    simp [collapseSummary, hstart, hf]

/-- Witness for C2 as amended: one surviving task child (days 30..40,
resource alice) under collapse yields no individually attached child and
exactly the synthetic summary task spanning days 30..40 with resource
alice. -/
theorem c2_collapse_summary_witness :
    (makeSubproject true none true 0 100 none [] ("sub")
        [⟨false, false, none, some [("alice")], 30, some 40⟩]).1.attached = [] ∧
    (makeSubproject true none true 0 100 none [] ("sub")
        [⟨false, false, none, some [("alice")], 30, some 40⟩]).2 =
      some { name := ("sub"), startDate := 30, stopDate := some 40,
             resources := some [("alice")] } := by
  have h := c2_collapse_summary true none 0 100 none [] ("sub")
    [⟨false, false, none, some [("alice")], 30, some 40⟩] 30
    (by decide) (by decide)
  refine ⟨h.1, ?_⟩
  rw [h.2]
  decide

/-- C6 fails as stated: a nested-project child that carries an `employees`
attribute whose contributors do not intersect the active filter set is
skipped by the population loop (the `else` branch of lines 989-998 applies to
any element with the attribute, projects included). -/
theorem c6_project_filter_counterexample :
    employeeFilterSkip (some [("alice")])
        ⟨true, false, some [("bob")], none, 10, some 20⟩ = true ∧
    stepChild true (some [("alice")]) false 0 100 none [] initState
        ⟨true, false, some [("bob")], none, 10, some 20⟩ = initState := by
  decide

/-- C6 as amended: with an employee filter active, a task child without an
`employees` attribute is skipped; a project child without the attribute is
never skipped on employee grounds; any child carrying the attribute — task or
project — is kept exactly when some contributing employee lies in the filter
set; and a skipped child leaves the population state untouched. -/
theorem c6_employee_filter_skip (fl : List String) (c : ChildElem) (st : AsmState)
    (details collapse : Bool) (ws we : Int) (empCollapsed : Option (List String))
    (registry : List String) :
    (c.isProject = false → c.employees = none →
      employeeFilterSkip (some fl) c = true) ∧
    (c.isProject = true → c.employees = none →
      employeeFilterSkip (some fl) c = false) ∧
    (∀ es, c.employees = some es →
      (employeeFilterSkip (some fl) c = false ↔ ∃ e ∈ es, e ∈ fl)) ∧
    (employeeFilterSkip (some fl) c = true →
      stepChild details (some fl) collapse ws we empCollapsed registry st c = st) := by
  refine ⟨fun hp he => ?_, fun hp he => ?_, fun es hes => ?_, fun hskip => ?_⟩
  · simp [employeeFilterSkip, hp, he]
  · simp [employeeFilterSkip, hp, he]
  · rw [← check_contributing_iff fl es]
    simp [employeeFilterSkip, hes]
  · simp [stepChild, hskip]

/-- Witness for C6 as amended: with filter set alice, a task child without an
`employees` attribute is skipped (and leaves the state untouched), while a
project child without the attribute is not skipped. -/
theorem c6_employee_filter_skip_witness :
    employeeFilterSkip (some [("alice")]) ⟨false, false, none, none, 0, some 1⟩ = true ∧
    employeeFilterSkip (some [("alice")]) ⟨true, false, none, none, 0, some 1⟩ = false ∧
    stepChild true (some [("alice")]) false 0 100 none [] initState
        ⟨false, false, none, none, 0, some 1⟩ = initState := by
  have h1 := c6_employee_filter_skip [("alice")] ⟨false, false, none, none, 0, some 1⟩
    initState true false 0 100 none []
  have h2 := c6_employee_filter_skip [("alice")] ⟨true, false, none, none, 0, some 1⟩
    initState true false 0 100 none []
  exact ⟨h1.1 rfl rfl, h2.2.1 rfl rfl, h1.2.2.2 (h1.1 rfl rfl)⟩

/-!
## Duplicate keys and Task validation

`ProjectPlanner.add_tasks_and_milestones` (lines 815-858) flattens the
module-structured task configuration into one dict with a per-call duplicate
check, then registers each entry in `self.tasks_and_milestones`.
`Task.__init__` (lines 275-316) validates the resolved dates.
-/

/-- A task/milestone configuration entry as inspected by
`add_tasks_and_milestones`: the raw `employees` field (key list; `none` for
an absent field, which Python treats as falsy) and an opaque payload standing
for the remaining configuration. -/
structure TaskConf where
  employees : Option (List String)
  payload : Nat
deriving DecidableEq, Repr

/-- Python dict assignment `m[k] = v`: replace in place when the key exists
(dicts keep the original insertion position), append otherwise. -/
def dictInsert (m : List (String × TaskConf)) (k : String) (v : TaskConf) :
    List (String × TaskConf) :=
  if (m.lookup k).isSome then m.map (fun kv => if kv.1 = k then (k, v) else kv)
  else m ++ [(k, v)]

/-- The inner task loop of lines 831-850: for each task of a module, first
the duplicate check against the accumulated `tasks_en_mp` dict (raising
`ValueError`, lines 833-836), then — only with an active employee filter —
the contribution check with skip (lines 837-847), then the accumulation.  An
absent `employees` field reaches `check_if_employee_in_contributing` as a
falsy value, modelled by the empty list. -/
def flattenTaskList (filt : Option (List String)) (acc : List (String × TaskConf)) :
    List (String × TaskConf) → Except PyError (List (String × TaskConf))
  | [] => Except.ok acc
  | (k, conf) :: rest =>
      if (acc.lookup k).isSome then Except.error PyError.valueError
      else
        match filt with
        | some fl =>
            if check_if_employee_in_contributing fl (conf.employees.getD []) then
              flattenTaskList filt (acc ++ [(k, conf)]) rest
            else flattenTaskList filt acc rest
        | none => flattenTaskList filt (acc ++ [(k, conf)]) rest

/-- The outer module loop of lines 829-850: the accumulated dict is shared
across the modules of one call. -/
def flattenModules (filt : Option (List String)) (acc : List (String × TaskConf)) :
    List (String × List (String × TaskConf)) → Except PyError (List (String × TaskConf))
  | [] => Except.ok acc
  | m :: rest =>
      match flattenTaskList filt acc m.2 with
      | Except.error e => Except.error e
      | Except.ok acc2 => flattenModules filt acc2 rest

/-- Embeds `ProjectPlanner.add_tasks_and_milestones` (lines 815-858) at the
level of key handling: flatten the module-structured info (or take the flat
dict argument as is), then register every entry into the planner's combined
`tasks_and_milestones` dict with plain assignment — no check against entries
registered by earlier calls.  Element construction
(`make_task_or_milestone`) is abstracted to storing the configuration; both
arguments absent is the Python `TypeError` of iterating `None`. -/
def addTasksAndMilestones (filt : Option (List String))
    (existing : List (String × TaskConf))
    (tasksAndMilestonesInfo : Option (List (String × List (String × TaskConf))))
    (tasksAndMilestones : Option (List (String × TaskConf))) :
    Except PyError (List (String × TaskConf)) :=
  match tasksAndMilestonesInfo with
  | some modules =>
      match flattenModules filt [] modules with
      | Except.error e => Except.error e
      | Except.ok tasksEnMp =>
          Except.ok (tasksEnMp.foldl (fun m kv => dictInsert m kv.1 kv.2) existing)
  | none =>
      match tasksAndMilestones with
      | some tasksEnMp =>
          Except.ok (tasksEnMp.foldl (fun m kv => dictInsert m kv.1 kv.2) existing)
      | none => Except.error PyError.typeError

/-- Embeds the subproject registration of `make_projects` lines 918-923: a
key already present in the subprojects namespace raises `ValueError`,
otherwise the project is registered under its key. -/
def registerSubproject (subprojects : List (String × Nat)) (projectKey : String)
    (project : Nat) : Except PyError (List (String × Nat)) :=
  if (subprojects.lookup projectKey).isSome then Except.error PyError.valueError
  else Except.ok (subprojects ++ [(projectKey, project)])

/-- Embeds the validation of `Task.__init__` (lines 275-316 together with the
`BasicElement` label check of lines 265-266) on resolved date values: a
missing label is fatal; end and duration both unset is fatal; a resolved end
date before the resolved start date is fatal (comparing a date with a `None`
start is a Python `TypeError`). -/
def taskInit (label : Option String) (start end_ duration : Option Int) :
    Except PyError Unit :=
  if label = none then Except.error PyError.valueError
  else if end_ = none ∧ duration = none then Except.error PyError.valueError
  else
    match end_ with
    | some e =>
        match start with
        | some s => if e < s then Except.error PyError.valueError else Except.ok ()
        | none => Except.error PyError.typeError
    | none => Except.ok ()

/-- C5 fails as stated: a task key already present in the planner's combined
tasks-and-milestones namespace from an earlier call does not raise — the
second call silently overwrites the entry (the duplicate check of line 833
only consults the dict accumulated within the current call). -/
theorem c5_duplicate_across_calls_counterexample :
    addTasksAndMilestones none [(("k"), ⟨none, 0⟩)]
        (some [(("m"), [(("k"), ⟨none, 1⟩)])]) none
      = Except.ok [(("k"), ⟨none, 1⟩)] := by
  rfl

/-- C5 as amended: a task key re-used within a single
`add_tasks_and_milestones` call — already accepted into the accumulated dict
— raises `ValueError` before any further processing, whether or not an
employee filter is active; and a subproject key already present in the
subprojects namespace makes `make_projects` raise `ValueError`.  (A task key
already registered by an earlier call is silently overwritten instead, per
the counterexample.) -/
theorem c5_duplicate_keys (filt : Option (List String))
    (acc : List (String × TaskConf)) (k : String) (conf : TaskConf)
    (rest : List (String × TaskConf)) (h : (acc.lookup k).isSome) :
    flattenTaskList filt acc ((k, conf) :: rest) = Except.error PyError.valueError ∧
    ∀ (subs : List (String × Nat)) (key : String) (p : Nat),
      (subs.lookup key).isSome →
        registerSubproject subs key p = Except.error PyError.valueError := by
  constructor
  · simp [flattenTaskList, h]
  · intro subs key p hs
    simp [registerSubproject, hs]

/-- Witness for C5 as amended: a within-call duplicate of key k raises, and
re-registering subproject key p raises. -/
theorem c5_duplicate_keys_witness :
    flattenTaskList none [(("k"), ⟨none, 0⟩)] [(("k"), ⟨none, 1⟩)]
      = Except.error PyError.valueError ∧
    registerSubproject [(("p"), 0)] ("p") 1 = Except.error PyError.valueError := by
  have h := c5_duplicate_keys none [(("k"), ⟨none, 0⟩)] ("k") ⟨none, 1⟩ []
    (by decide)
  exact ⟨h.1, h.2 [(("p"), 0)] ("p") 1 (by decide)⟩

/-- C7: for a task with a start date, leaving both end and duration unset
fails with a configuration error, and a resolved end date earlier than the
resolved start date fails with a configuration error. -/
theorem c7_task_date_validation (label : String) (s : Int) (e d : Option Int) :
    (e = none → d = none →
      taskInit (some label) (some s) e d = Except.error PyError.valueError) ∧
    (∀ ev, e = some ev → ev < s →
      taskInit (some label) (some s) e d = Except.error PyError.valueError) := by
  constructor
  · intro he hd
    simp [taskInit, he, hd]
  · intro ev he hlt
    simp [taskInit, he, hlt]

/-- Witness for C7: a task with start day 5 and neither end nor duration
fails, and a task with start day 5 and end day 3 fails. -/
theorem c7_task_date_validation_witness :
    taskInit (some ("t")) (some 5) none none = Except.error PyError.valueError ∧
    taskInit (some ("t")) (some 5) (some 3) none = Except.error PyError.valueError := by
  have h := c7_task_date_validation ("t") 5 none none
  have h2 := c7_task_date_validation ("t") 5 (some 3) none
  exact ⟨h.1 rfl rfl, h2.2 3 rfl (by decide)⟩

/-!
## Date/Variable Resolver and StartEndBase

`insert_variables` (lines 33-50) substitutes occurrences of the regex
pattern built from two opening braces, one-or-more whitespace, the variable
key, one-or-more whitespace and two closing braces.  `parse_date`
(lines 78-108) parses an optional date string with an optional default.
`StartEndBase.__init__` (lines 139-160) stores the two parsed dates;
`Vacation.__init__` (lines 163-172) forwards to it without variables.
-/

/-- The whitespace class of Python regular expressions. -/
def isPySpace (ch : Char) : Bool :=
  ch = ' ' || ch = '\t' || ch = '\n' || ch = '\r' || ch = '\x0b' || ch = '\x0c'

/-- Match a literal character sequence at the head of the input, returning
the remainder. -/
def matchLit : List Char → List Char → Option (List Char)
  | [], cs => some cs
  | _ :: _, [] => none
  | k :: ks, ch :: cs => if ch = k then matchLit ks cs else none

/-- Match one-or-more whitespace characters greedily, returning the
remainder. -/
def dropSpaces1 : List Char → Option (List Char)
  | [] => none
  | ch :: cs => if isPySpace ch then some (cs.dropWhile isPySpace) else none

/-- Match the closing pair of braces of the variable pattern. -/
def matchClose : List Char → Option (List Char)
  | '\x7d' :: '\x7d' :: r => some r
  | _ => none

/-- Match one occurrence of the variable pattern (two opening braces,
whitespace, the key, whitespace, two closing braces) at the head of the
input, returning the remainder after the match.  Keys are assumed free of
leading/trailing whitespace and regex metacharacters, in which case greedy
maximal munch agrees with the regex. -/
def matchVarAt (key : List Char) (cs : List Char) : Option (List Char) :=
  match cs with
  | '\x7b' :: '\x7b' :: rest =>
      (dropSpaces1 rest).bind (fun r1 =>
        (matchLit key r1).bind (fun r2 =>
          (dropSpaces1 r2).bind (fun r3 => matchClose r3)))
  | _ => none

/-- The left-to-right non-overlapping substitution scan of `re.sub`, with an
explicit fuel argument to make the recursion structural; every match consumes
at least one character, so fuel equal to the input length is exact
(`substAux_fuel` below). -/
def substAux (key val : List Char) : Nat → List Char → List Char
  | _, [] => []
  | 0, cs => cs
  | n + 1, ch :: cs =>
      match matchVarAt key (ch :: cs) with
      | some r => val ++ substAux key val n r
      | none => ch :: substAux key val n cs

/-- One `re.sub` call of line 48 for a single variable key and stringified
value. -/
def substVar (key val line : String) : String :=
  String.mk (substAux key.toList val.toList line.toList.length line.toList)

theorem matchLit_length (ks : List Char) :
    ∀ cs r : List Char, matchLit ks cs = some r → r.length ≤ cs.length := by
  induction ks with
  | nil =>
      intro cs r h
      simp only [matchLit, Option.some.injEq] at h
      exact le_of_eq (congrArg List.length h.symm)
  | cons k ks ih =>
      intro cs r h
      cases cs with
      | nil => simp [matchLit] at h
      | cons ch cs =>
          simp only [matchLit] at h
          by_cases hc : ch = k
          · simp only [hc, if_true] at h
            exact le_trans (ih cs r h) (Nat.le_succ _)
          · simp [hc] at h

theorem dropSpaces1_length (cs r : List Char) (h : dropSpaces1 cs = some r) :
    r.length < cs.length := by
  cases cs with
  | nil => simp [dropSpaces1] at h
  | cons ch cs =>
      simp only [dropSpaces1] at h
      by_cases hs : isPySpace ch = true
      · simp only [hs, if_true, Option.some.injEq] at h
        have hd : (cs.dropWhile isPySpace).length ≤ cs.length :=
          (List.dropWhile_sublist isPySpace (l := cs)).length_le
        simp only [← h, List.length_cons]
        omega
      · simp [hs] at h

theorem matchClose_length (cs r : List Char) (h : matchClose cs = some r) :
    r.length < cs.length := by
  unfold matchClose at h
  split at h
  · simp only [Option.some.injEq] at h
    subst h
    simp only [List.length_cons]
    omega
  · simp at h

theorem matchVarAt_length (key cs r : List Char) (h : matchVarAt key cs = some r) :
    r.length < cs.length := by
  unfold matchVarAt at h
  split at h
  case h_2 => simp at h
  case h_1 rest =>
    cases h1 : dropSpaces1 rest with
    | none => rw [h1] at h; simp at h
    | some r1 =>
        rw [h1] at h
        simp only [Option.some_bind] at h
        cases h2 : matchLit key r1 with
        | none => rw [h2] at h; simp at h
        | some r2 =>
            rw [h2] at h
            simp only [Option.some_bind] at h
            cases h3 : dropSpaces1 r2 with
            | none => rw [h3] at h; simp at h
            | some r3 =>
                rw [h3] at h
                simp only [Option.some_bind] at h
                have l1 := dropSpaces1_length rest r1 h1
                have l2 := matchLit_length key r1 r2 h2
                have l3 := dropSpaces1_length r2 r3 h3
                have l4 := matchClose_length r3 r h
                simp only [List.length_cons]
                omega

/-- Any fuel at least the input length computes the same substitution, so the
exact fuel used by `substVar` is canonical. -/
theorem substAux_fuel (key val : List Char) :
    ∀ (bound : Nat) (cs : List Char) (n m : Nat),
      cs.length ≤ bound → cs.length ≤ n → cs.length ≤ m →
      substAux key val n cs = substAux key val m cs := by
  intro bound
  induction bound with
  | zero =>
      intro cs n m hb _ _
      have : cs = [] := List.eq_nil_of_length_eq_zero (Nat.le_zero.mp hb)
      subst this
      cases n <;> cases m <;> rfl
  | succ b ih =>
      intro cs n m hb hn hm
      cases cs with
      | nil => cases n <;> cases m <;> rfl
      | cons ch cs =>
          cases n with
          | zero => simp at hn
          | succ n0 =>
              cases m with
              | zero => simp at hm
              | succ m0 =>
                  cases hmv : matchVarAt key (ch :: cs) with
                  | some r =>
                      have hr := matchVarAt_length key (ch :: cs) r hmv
                      simp only [substAux, hmv]
                      simp only [List.length_cons] at hr hb hn hm
                      rw [ih r n0 m0 (by omega) (by omega) (by omega)]
                  | none =>
                      simp only [substAux, hmv]
                      simp only [List.length_cons] at hb hn hm
                      rw [ih cs n0 m0 (by omega) (by omega) (by omega)]

/-- A Python value appearing in a date-typed configuration field: a string,
or an object that is already a datetime/date (which `parse_date` passes
through unchanged). -/
inductive PyDateVal where
  | str (s : String)
  | dt (d : Int)
deriving DecidableEq, Repr

/-- What `parse_date` stores: a freshly parsed date, or the original
non-string object passed through by the `AttributeError` branch of
lines 101-103 or the non-string default of line 107. -/
inductive PyOut where
  | parsed (d : Int)
  | raw (v : PyDateVal)
deriving DecidableEq, Repr

/-- Embeds `insert_variables` (lines 33-50) as called on date-typed fields.
With no variable mapping (or an empty one) the input — even `None` — passes
through untouched; with a non-empty mapping, `re.sub` is applied per variable
in mapping order, which on a non-string input (including `None`) raises
`TypeError`. -/
def insert_variables (line : Option PyDateVal)
    (variables_info : Option (List (String × String))) :
    Except PyError (Option PyDateVal) :=
  match variables_info with
  | none => Except.ok line
  | some vs =>
      if vs.isEmpty then Except.ok line
      else
        match line with
        | some (PyDateVal.str s) =>
            Except.ok (some (PyDateVal.str
              (vs.foldl (fun l kv => substVar kv.1 kv.2 l) s)))
        | _ => Except.error PyError.typeError

/-- Embeds `parse_date` (lines 78-108).  The external `dateutil` parser is
abstracted as the parameter `p` (the `dayfirst` flag is part of `p`); a
`ParserError` it raises propagates.  A non-string `date_in` raises
`AttributeError` at `.strip()`, caught at line 101 and returned unchanged; a
non-string, non-`None` default is returned unchanged by line 107; `None` in
and `None` default yields `None`. -/
def parse_date (p : String → Except PyError Int)
    (date_in date_default : Option PyDateVal) : Except PyError (Option PyOut) :=
  match date_in with
  | some (PyDateVal.str s) => (p s.trim).map (fun d => some (PyOut.parsed d))
  | some (PyDateVal.dt d) => Except.ok (some (PyOut.raw (PyDateVal.dt d)))
  | none =>
      match date_default with
      | some (PyDateVal.str s) => (p s.trim).map (fun d => some (PyOut.parsed d))
      | some (PyDateVal.dt d) => Except.ok (some (PyOut.raw (PyDateVal.dt d)))
      | none => Except.ok none

/-- The two dates stored by `StartEndBase.__init__` (lines 144-160). -/
structure StartEndBase where
  start : Option PyOut
  end_ : Option PyOut
deriving DecidableEq, Repr

/-- Embeds `StartEndBase.__init__` (lines 144-160): substitute variables into
and parse the start date, then the end date, in statement order; any raised
exception propagates. -/
def startEndBaseInit (p : String → Except PyError Int)
    (start end_ : Option PyDateVal)
    (variables_info : Option (List (String × String))) :
    Except PyError StartEndBase :=
  match insert_variables start variables_info with
  | Except.error e => Except.error e
  | Except.ok s0 =>
      match parse_date p s0 none with
      | Except.error e => Except.error e
      | Except.ok sParsed =>
          match insert_variables end_ variables_info with
          | Except.error e => Except.error e
          | Except.ok e0 =>
              match parse_date p e0 none with
              | Except.error e => Except.error e
              | Except.ok eParsed => Except.ok ⟨sParsed, eParsed⟩

/-- Embeds the date handling of `Vacation.__init__` (lines 163-172), which
forwards to `StartEndBase.__init__` without a variable mapping; the vacation
pool registration side effect is not date-relevant. -/
def vacationInit (p : String → Except PyError Int) (start end_ : Option PyDateVal) :
    Except PyError StartEndBase :=
  startEndBaseInit p start end_ none

/-- A total external date parser, used to instantiate witnesses. -/
def pZero : String → Except PyError Int := fun _ => Except.ok 0

theorem startEndBase_end_none (p : String → Except PyError Int)
    (start : Option PyDateVal) (vars : Option (List (String × String)))
    (seb : StartEndBase) (hvars : vars = none ∨ vars = some [])
    (hok : startEndBaseInit p start none vars = Except.ok seb) :
    seb.end_ = none := by
  have hiv : ∀ line : Option PyDateVal, insert_variables line vars = Except.ok line := by
    intro line
    rcases hvars with h | h <;> subst h <;> simp [insert_variables]
  simp only [startEndBaseInit, hiv] at hok
  cases hp : parse_date p start none with
  | error e => rw [hp] at hok; simp at hok
  | ok s0 =>
      rw [hp] at hok
      simp only [parse_date, Except.ok.injEq] at hok
      subst hok
      rfl

/-- C10 fails as stated: a `StartEndBase` constructed with an absent end date
but a non-empty variables mapping does not store `end = None` — the `re.sub`
call inside `insert_variables` receives `None` and raises `TypeError`, so
construction fails. -/
theorem c10_absent_end_counterexample :
    startEndBaseInit pZero (some (PyDateVal.str ("a"))) none
        (some [(("x"), ("1"))]) = Except.error PyError.typeError := by
  rfl

/-- C10 as amended: `parse_date` with a `None` input date and a `None`
default returns `None` without raising, and every `StartEndBase` constructed
with an absent end date and no (or an empty) variables mapping — in
particular every `Vacation`, which never passes variables — stores
`end = None` rather than failing; with a non-empty variables mapping the
construction raises `TypeError` instead (per the counterexample). -/
theorem c10_parse_date_none_defaults (p : String → Except PyError Int) :
    parse_date p none none = Except.ok none ∧
    (∀ (start : Option PyDateVal) (vars : Option (List (String × String)))
        (seb : StartEndBase), (vars = none ∨ vars = some []) →
      startEndBaseInit p start none vars = Except.ok seb → seb.end_ = none) ∧
    (∀ (start : Option PyDateVal) (seb : StartEndBase),
      vacationInit p start none = Except.ok seb → seb.end_ = none) := by
  refine ⟨rfl, fun start vars seb hv hok => startEndBase_end_none p start vars seb hv hok,
    fun start seb hok => startEndBase_end_none p start none seb (Or.inl rfl) hok⟩

/-- Witness for C10 as amended: with the trivial parser and no variables,
construction from an absent end date succeeds and stores `end = None`. -/
theorem c10_parse_date_none_defaults_witness :
    parse_date pZero none none = Except.ok none ∧
    vacationInit pZero (some (PyDateVal.dt 7)) none =
      Except.ok ⟨some (PyOut.raw (PyDateVal.dt 7)), none⟩ ∧
    StartEndBase.end_ ⟨some (PyOut.raw (PyDateVal.dt 7)), none⟩ = none := by
  refine ⟨(c10_parse_date_none_defaults pZero).1, rfl, ?_⟩
  exact (c10_parse_date_none_defaults pZero).2.2 (some (PyDateVal.dt 7))
    ⟨some (PyOut.raw (PyDateVal.dt 7)), none⟩ rfl
